import Mathlib

/-!
Shallow embedding of the uno_mux CD74HC4067 multiplexer driver (src/lib.rs).

The embedding covers the 4-bit channel-index type `U4` and the `Multiplexer`
driver. Pin handles are modelled by records of explicit state-passing
operations: a fallible write takes the handle and a world state and returns
the outcome together with the updated handle and world, mirroring the
in-place mutation of `&mut self` methods in the source.
-/

namespace UnoMux

/-- Embeds `pub struct U4(u16)` from the `u4` module: a newtype over `u16`
(the `u16` is embedded as `Nat`; no operation on it can overflow). -/
structure U4 where
  val : Nat

/-- Embeds `pub const MAX: U4 = U4(15)`. -/
def U4.MAX : U4 := ⟨15⟩

/-- Embeds `pub const ZERO: U4 = U4(0)`. -/
def U4.ZERO : U4 := ⟨0⟩

/-- Embeds `pub const ONE: U4 = U4(1)`. -/
def U4.ONE : U4 := ⟨1⟩

/-- Embeds `pub const TWO: U4 = U4(2)`. -/
def U4.TWO : U4 := ⟨2⟩

/-- Embeds `pub const THREE: U4 = U4(3)`. -/
def U4.THREE : U4 := ⟨3⟩

/-- Embeds `pub const FOUR: U4 = U4(4)`. -/
def U4.FOUR : U4 := ⟨4⟩

/-- Embeds `pub const FIVE: U4 = U4(5)`. -/
def U4.FIVE : U4 := ⟨5⟩

/-- Embeds `pub const SIX: U4 = U4(6)`. -/
def U4.SIX : U4 := ⟨6⟩

/-- Embeds `pub const SEVEN: U4 = U4(7)`. -/
def U4.SEVEN : U4 := ⟨7⟩

/-- Embeds `pub const EIGHT: U4 = U4(8)`. -/
def U4.EIGHT : U4 := ⟨8⟩

/-- Embeds `pub const NINE: U4 = U4(9)`. -/
def U4.NINE : U4 := ⟨9⟩

/-- Embeds `pub const TEN: U4 = U4(10)`. -/
def U4.TEN : U4 := ⟨10⟩

/-- Embeds `pub const ELEVEN: U4 = U4(11)`. -/
def U4.ELEVEN : U4 := ⟨11⟩

/-- Embeds `pub const TWELVE: U4 = U4(12)`. -/
def U4.TWELVE : U4 := ⟨12⟩

/-- Embeds `pub const THIRTEEN: U4 = U4(13)`. -/
def U4.THIRTEEN : U4 := ⟨13⟩

/-- Embeds `pub const FOURTEEN: U4 = U4(14)`. -/
def U4.FOURTEEN : U4 := ⟨14⟩

/-- Embeds `pub const FIFTEEN: U4 = U4(15)`. -/
def U4.FIFTEEN : U4 := ⟨15⟩

/-- Embeds `pub fn truncated(val: u16) -> U4 { U4(val % U4::MAX.0) }`. -/
def U4.truncated (val : Nat) : U4 := ⟨val % U4.MAX.val⟩

/-- Embeds `impl From<U4> for u16`, returning the wrapped value. -/
def U4.toU16 (u : U4) : Nat := u.val

/-- Embeds `impl TryFrom<u16> for U4` with `type Error = ()`:
`if val <= U4::MAX.0 { Ok(U4(val)) } else { Err(()) }`. -/
def U4.tryFrom (val : Nat) : Except Unit U4 :=
  if val ≤ U4.MAX.val then .ok ⟨val⟩ else .error ()

/-- Embeds the derived `Ord` on `U4`, which compares the single wrapped
field: `a.cmp(b) = a.0.cmp(&b.0)`. -/
def U4.cmp (a b : U4) : Ordering := compare a.val b.val

/-- Capability record embedding the OutputPin trait for a handle of type P.
A write mutates the handle and the outside world (state type w) in place in
the source; here it returns the outcome together with the updated handle
and world. The error type e is the trait's associated Error type. -/
structure OutputPinOps (P w e : Type) where
  set_high : P → w → Except e Unit × P × w
  set_low : P → w → Except e Unit × P × w

/-- Capability record embedding the InputPin trait for a handle of type P:
reads take the handle and the world by shared reference and return a level
or an error of the associated Error type e. -/
structure InputPinOps (P w e : Type) where
  is_high : P → w → Except e Bool
  is_low : P → w → Except e Bool

/-- Capability record embedding the adc Channel trait: channel() is an
associated function returning the channel identity of type ID. -/
structure ChannelOps (ID : Type) where
  channel : ID

/-- Embeds `fn set_pin<PIN: OutputPin>(pin: &mut PIN, on: bool)`:
`if on { pin.set_high() } else { pin.set_low() }`. -/
def set_pin {P w e : Type} (ops : OutputPinOps P w e) (pin : P) (lvl : Bool) (s : w) :
    Except e Unit × P × w :=
  if lvl then ops.set_high pin s else ops.set_low pin s

/-- Embeds `pub enum MultiplexSelectionError<E0, E1, E2, E3>`. -/
inductive MultiplexSelectionError (E0 E1 E2 E3 : Type) where
  | Select0 : E0 → MultiplexSelectionError E0 E1 E2 E3
  | Select1 : E1 → MultiplexSelectionError E0 E1 E2 E3
  | Select2 : E2 → MultiplexSelectionError E0 E1 E2 E3
  | Select3 : E3 → MultiplexSelectionError E0 E1 E2 E3

/-- Embeds `pub struct Multiplexer<S0, S1, S2, S3, IO, EN>` with its six pin
handle fields. The source's `enable` field is named `en` here because the
`enable` method lives in the same namespace in this embedding. -/
structure Multiplexer (S0 S1 S2 S3 IOT EN : Type) where
  select0 : S0
  select1 : S1
  select2 : S2
  select3 : S3
  io : IOT
  en : EN

/-- Embeds `Multiplexer::new`: pure aggregation of the six handles. -/
def Multiplexer.new {S0 S1 S2 S3 IOT EN : Type}
    (select0 : S0) (select1 : S1) (select2 : S2) (select3 : S3)
    (io : IOT) (en : EN) : Multiplexer S0 S1 S2 S3 IOT EN :=
  ⟨select0, select1, select2, select3, io, en⟩

/-- Embeds `Multiplexer::select`: converts the selection to u16, then writes
bit k of it to select line k for k = 0, 1, 2, 3 via set_pin, mapping a
failure of line k to the SelectK variant and aborting with `?`. -/
def Multiplexer.select {S0 S1 S2 S3 IOT EN w e0 e1 e2 e3 : Type}
    (O0 : OutputPinOps S0 w e0) (O1 : OutputPinOps S1 w e1)
    (O2 : OutputPinOps S2 w e2) (O3 : OutputPinOps S3 w e3)
    (m : Multiplexer S0 S1 S2 S3 IOT EN) (selection : U4) (s : w) :
    Except (MultiplexSelectionError e0 e1 e2 e3) Unit ×
      Multiplexer S0 S1 S2 S3 IOT EN × w :=
  let sel : Nat := selection.toU16
  match set_pin O0 m.select0 (((sel >>> 0) &&& 1) != 0) s with
  | (.error e, p0, s0) => (.error (.Select0 e), { m with select0 := p0 }, s0)
  | (.ok _, p0, s0) =>
    match set_pin O1 m.select1 (((sel >>> 1) &&& 1) != 0) s0 with
    | (.error e, p1, s1) =>
        (.error (.Select1 e), { m with select0 := p0, select1 := p1 }, s1)
    | (.ok _, p1, s1) =>
      match set_pin O2 m.select2 (((sel >>> 2) &&& 1) != 0) s1 with
      | (.error e, p2, s2) =>
          (.error (.Select2 e),
            { m with select0 := p0, select1 := p1, select2 := p2 }, s2)
      | (.ok _, p2, s2) =>
        match set_pin O3 m.select3 (((sel >>> 3) &&& 1) != 0) s2 with
        | (.error e, p3, s3) =>
            (.error (.Select3 e),
              { m with select0 := p0, select1 := p1, select2 := p2,
                       select3 := p3 }, s3)
        | (.ok _, p3, s3) =>
            (.ok (),
              { m with select0 := p0, select1 := p1, select2 := p2,
                       select3 := p3 }, s3)

/-- Embeds `Multiplexer::enable`: `self.enable.set_low()` (the EN pin is
enable-low), propagating the outcome unchanged. -/
def Multiplexer.enable {S0 S1 S2 S3 IOT EN w e : Type}
    (OEN : OutputPinOps EN w e) (m : Multiplexer S0 S1 S2 S3 IOT EN) (s : w) :
    Except e Unit × Multiplexer S0 S1 S2 S3 IOT EN × w :=
  match OEN.set_low m.en s with
  | (r, p, s1) => (r, { m with en := p }, s1)

/-- Embeds `Multiplexer::disable`: `self.enable.set_high()`, propagating the
outcome unchanged. -/
def Multiplexer.disable {S0 S1 S2 S3 IOT EN w e : Type}
    (OEN : OutputPinOps EN w e) (m : Multiplexer S0 S1 S2 S3 IOT EN) (s : w) :
    Except e Unit × Multiplexer S0 S1 S2 S3 IOT EN × w :=
  match OEN.set_high m.en s with
  | (r, p, s1) => (r, { m with en := p }, s1)

/-- Embeds `impl OutputPin for Multiplexer`, fn set_high:
`self.io.set_high()`. -/
def Multiplexer.set_high {S0 S1 S2 S3 IOT EN w e : Type}
    (Opin : OutputPinOps IOT w e) (m : Multiplexer S0 S1 S2 S3 IOT EN) (s : w) :
    Except e Unit × Multiplexer S0 S1 S2 S3 IOT EN × w :=
  match Opin.set_high m.io s with
  | (r, p, s1) => (r, { m with io := p }, s1)

/-- Embeds `impl OutputPin for Multiplexer`, fn set_low:
`self.io.set_low()`. -/
def Multiplexer.set_low {S0 S1 S2 S3 IOT EN w e : Type}
    (Opin : OutputPinOps IOT w e) (m : Multiplexer S0 S1 S2 S3 IOT EN) (s : w) :
    Except e Unit × Multiplexer S0 S1 S2 S3 IOT EN × w :=
  match Opin.set_low m.io s with
  | (r, p, s1) => (r, { m with io := p }, s1)

/-- Embeds `impl InputPin for Multiplexer`, fn is_high:
`self.io.is_high()`. -/
def Multiplexer.is_high {S0 S1 S2 S3 IOT EN w e : Type}
    (Ipin : InputPinOps IOT w e) (m : Multiplexer S0 S1 S2 S3 IOT EN) (s : w) :
    Except e Bool :=
  Ipin.is_high m.io s

/-- Embeds `impl InputPin for Multiplexer`, fn is_low: the source body at
src/lib.rs line 129 is `self.io.is_high()` - it forwards to the io handle's
is_high operation, not its is_low operation. -/
def Multiplexer.is_low {S0 S1 S2 S3 IOT EN w e : Type}
    (Ipin : InputPinOps IOT w e) (m : Multiplexer S0 S1 S2 S3 IOT EN) (s : w) :
    Except e Bool :=
  Ipin.is_high m.io s

/-- Embeds `impl Channel<ADC> for Multiplexer`, fn channel:
`IO::channel()` with `type ID = IO::ID`. -/
def Multiplexer.channel {ID : Type} (Cpin : ChannelOps ID) : ID :=
  Cpin.channel

/-- World state for the trace model: the list of write events (line index,
level) performed on the select lines, in order. -/
abbrev SelLog := List (Nat × Bool)

/-- Trace instantiation of a select-line handle for line k: every write
succeeds and appends its event to the world log. -/
def traceOps (k : Nat) : OutputPinOps Unit SelLog String :=
  { set_high := fun p s => (.ok (), p, s ++ [(k, true)])
    set_low := fun p s => (.ok (), p, s ++ [(k, false)]) }

/-- Trace instantiation of a select-line handle whose every write fails with
the error "e2" and leaves the world unchanged. -/
def failOps2 : OutputPinOps Unit SelLog String :=
  { set_high := fun p s => (.error "e2", p, s)
    set_low := fun p s => (.error "e2", p, s) }

/-- Trace instantiation of an enable-line handle over a list-of-levels
world: every write succeeds and appends the written level. -/
def enTraceOps : OutputPinOps Unit (List Bool) String :=
  { set_high := fun p s => (.ok (), p, s ++ [true])
    set_low := fun p s => (.ok (), p, s ++ [false]) }

/-- A multiplexer over unit handles, for the trace instantiations. -/
def traceMux : Multiplexer Unit Unit Unit Unit Unit Unit :=
  ⟨(), (), (), (), (), ()⟩

/-- An io handle whose line reads high: is_high returns true and is_low
returns false. -/
def stuckHighIn : InputPinOps Unit Unit String :=
  { is_high := fun _ _ => .ok true
    is_low := fun _ _ => .ok false }

end UnoMux

namespace UnoMux

/-- C3: for every value v, U4::truncated(v) always succeeds (it is a total
function) and returns the channel index whose value is v mod 15 - the
modulus is U4::MAX.0 = 15, the channel count minus one, not 16. -/
theorem truncated_mod_fifteen (v : Nat) : (U4.truncated v).toU16 = v % 15 := rfl

/-- C5: validated construction of a channel index from an integer v (the
TryFrom u16 impl for U4) succeeds exactly when v is at most 15 - and since
the domain is unsigned, exactly when 0 ≤ v ≤ 15 - and on failure returns
the unit error, which carries no payload. -/
theorem tryFrom_validates_range (v : Nat) :
    (v ≤ 15 → U4.tryFrom v = .ok ⟨v⟩) ∧ (15 < v → U4.tryFrom v = .error ()) := by
  refine ⟨fun h => ?_, fun h => ?_⟩
  · simp [U4.tryFrom, U4.MAX, h]
  · simp [U4.tryFrom, U4.MAX, Nat.not_le.mpr h]

/-- Witness for C5 at the concrete inputs 7 (in range) and 16 (out of range). -/
theorem tryFrom_validates_range_witness :
    U4.tryFrom 7 = .ok ⟨7⟩ ∧ U4.tryFrom 16 = .error () :=
  ⟨(tryFrom_validates_range 7).1 (by decide), (tryFrom_validates_range 16).2 (by decide)⟩

/-- C6: every construction path of the channel-index type - truncation,
validated construction, and the named constants ZERO through FIFTEEN and
MAX - yields a wrapped value in the range 0..15. -/
theorem u4_range_invariant :
    (∀ v : Nat, (U4.truncated v).val ≤ 15) ∧
    (∀ (v : Nat) (u : U4), U4.tryFrom v = .ok u → u.val ≤ 15) ∧
    U4.ZERO.val ≤ 15 ∧ U4.ONE.val ≤ 15 ∧ U4.TWO.val ≤ 15 ∧ U4.THREE.val ≤ 15 ∧
    U4.FOUR.val ≤ 15 ∧ U4.FIVE.val ≤ 15 ∧ U4.SIX.val ≤ 15 ∧ U4.SEVEN.val ≤ 15 ∧
    U4.EIGHT.val ≤ 15 ∧ U4.NINE.val ≤ 15 ∧ U4.TEN.val ≤ 15 ∧ U4.ELEVEN.val ≤ 15 ∧
    U4.TWELVE.val ≤ 15 ∧ U4.THIRTEEN.val ≤ 15 ∧ U4.FOURTEEN.val ≤ 15 ∧
    U4.FIFTEEN.val ≤ 15 ∧ U4.MAX.val ≤ 15 := by
  refine ⟨fun v => ?_, fun v u h => ?_, ?_, ?_, ?_, ?_, ?_, ?_, ?_, ?_, ?_, ?_,
    ?_, ?_, ?_, ?_, ?_, ?_, ?_⟩
  · exact Nat.le_of_lt (Nat.mod_lt v (by decide))
  · unfold U4.tryFrom at h
    split at h
    · cases h
      simpa [U4.MAX] using (by assumption : v ≤ U4.MAX.val)
    · cases h
  all_goals decide

/-- Witness for C6: the validated-construction conjunct applied at the
concrete input 9. -/
theorem u4_range_invariant_witness : (⟨9⟩ : U4).val ≤ 15 :=
  u4_range_invariant.2.1 9 ⟨9⟩ rfl

/-- C8: for every v in the range 0..15, validated construction from v
succeeds and converting the result back to an integer yields exactly v. -/
theorem validated_roundtrip (v : Nat) (hv : v ≤ 15) :
    U4.tryFrom v = .ok ⟨v⟩ ∧ U4.toU16 (⟨v⟩ : U4) = v := by
  refine ⟨?_, rfl⟩
  simp [U4.tryFrom, U4.MAX, hv]

/-- Witness for C8 at the concrete input 13. -/
theorem validated_roundtrip_witness :
    U4.tryFrom 13 = .ok ⟨13⟩ ∧ U4.toU16 (⟨13⟩ : U4) = 13 :=
  validated_roundtrip 13 (by decide)

/-- C9: for every pair of channel indices a and b, a equals b exactly when
their wrapped values are equal, and a is ordered strictly before b (the
derived Ord comparison returns lt) exactly when a's wrapped value is less
than b's. -/
theorem eq_ord_match_val (a b : U4) :
    (a = b ↔ a.val = b.val) ∧ (U4.cmp a b = .lt ↔ a.val < b.val) := by
  refine ⟨⟨fun h => by rw [h], fun h => ?_⟩, ?_⟩
  · cases a
    cases b
    simp_all
  · simpa [U4.cmp] using Nat.compare_eq_lt

/-- C1: for every channel value v in 0..15, select drives exactly four
select lines, in the fixed order line 0, line 1, line 2, line 3, driving
line k high exactly when bit k of v - that is (v >>> k) &&& 1 - equals 1;
in particular the trace for v = 0 is all-low and for v = 15 all-high. -/
theorem select_drives_bits (v : Nat) (hv : v ≤ 15) :
    Multiplexer.select (traceOps 0) (traceOps 1) (traceOps 2) (traceOps 3)
        traceMux ⟨v⟩ [] =
      (.ok (), traceMux,
        [(0, ((v >>> 0) &&& 1) == 1), (1, ((v >>> 1) &&& 1) == 1),
         (2, ((v >>> 2) &&& 1) == 1), (3, ((v >>> 3) &&& 1) == 1)]) := by
  interval_cases v <;> rfl

/-- Witness for C1 at the concrete channel value 5 (and hence binary 0101:
lines 0 and 2 high, lines 1 and 3 low). -/
theorem select_drives_bits_witness :
    Multiplexer.select (traceOps 0) (traceOps 1) (traceOps 2) (traceOps 3)
        traceMux ⟨5⟩ [] =
      (.ok (), traceMux,
        [(0, ((5 >>> 0) &&& 1) == 1), (1, ((5 >>> 1) &&& 1) == 1),
         (2, ((5 >>> 2) &&& 1) == 1), (3, ((5 >>> 3) &&& 1) == 1)]) :=
  select_drives_bits 5 (by decide)

/-- C2 (code bug): the Multiplexer's is_low forwards to the io handle's
is_high operation, not its is_low operation. With an io handle whose line
reads high (is_high returns true, is_low returns false), the Multiplexer's
is_low returns true while the io handle's own is_low returns false. -/
theorem is_low_forwards_to_is_high :
    Multiplexer.is_low stuckHighIn traceMux () = .ok true ∧
    stuckHighIn.is_low traceMux.io () = .ok false :=
  ⟨rfl, rfl⟩

/-- C4: for every select line k = 0, 1, 2, 3 (one conjunct per line): if,
during select of channel c, the lines before k are driven successfully and
driving line k fails with underlying error e, then select returns the
selection error tagged with that specific line (SelectK) carrying e, the
final world state is exactly the state left by the failing line-k write (the
lines already driven are not rolled back), and no line after k is consulted
(the conclusion does not depend on the later handles). -/
theorem select_failure_aborts_tagged {S0 S1 S2 S3 IOT EN w e0 e1 e2 e3 : Type}
    (O0 : OutputPinOps S0 w e0) (O1 : OutputPinOps S1 w e1)
    (O2 : OutputPinOps S2 w e2) (O3 : OutputPinOps S3 w e3)
    (m : Multiplexer S0 S1 S2 S3 IOT EN) (c : U4) (s : w) :
    (∀ {p0 : S0} {s0 : w} {e : e0},
        set_pin O0 m.select0 (((c.toU16 >>> 0) &&& 1) != 0) s = (.error e, p0, s0) →
        Multiplexer.select O0 O1 O2 O3 m c s =
          (.error (.Select0 e), { m with select0 := p0 }, s0)) ∧
    (∀ {p0 : S0} {p1 : S1} {s0 s1 : w} {e : e1},
        set_pin O0 m.select0 (((c.toU16 >>> 0) &&& 1) != 0) s = (.ok (), p0, s0) →
        set_pin O1 m.select1 (((c.toU16 >>> 1) &&& 1) != 0) s0 = (.error e, p1, s1) →
        Multiplexer.select O0 O1 O2 O3 m c s =
          (.error (.Select1 e), { m with select0 := p0, select1 := p1 }, s1)) ∧
    (∀ {p0 : S0} {p1 : S1} {p2 : S2} {s0 s1 s2 : w} {e : e2},
        set_pin O0 m.select0 (((c.toU16 >>> 0) &&& 1) != 0) s = (.ok (), p0, s0) →
        set_pin O1 m.select1 (((c.toU16 >>> 1) &&& 1) != 0) s0 = (.ok (), p1, s1) →
        set_pin O2 m.select2 (((c.toU16 >>> 2) &&& 1) != 0) s1 = (.error e, p2, s2) →
        Multiplexer.select O0 O1 O2 O3 m c s =
          (.error (.Select2 e),
            { m with select0 := p0, select1 := p1, select2 := p2 }, s2)) ∧
    (∀ {p0 : S0} {p1 : S1} {p2 : S2} {p3 : S3} {s0 s1 s2 s3 : w} {e : e3},
        set_pin O0 m.select0 (((c.toU16 >>> 0) &&& 1) != 0) s = (.ok (), p0, s0) →
        set_pin O1 m.select1 (((c.toU16 >>> 1) &&& 1) != 0) s0 = (.ok (), p1, s1) →
        set_pin O2 m.select2 (((c.toU16 >>> 2) &&& 1) != 0) s1 = (.ok (), p2, s2) →
        set_pin O3 m.select3 (((c.toU16 >>> 3) &&& 1) != 0) s2 = (.error e, p3, s3) →
        Multiplexer.select O0 O1 O2 O3 m c s =
          (.error (.Select3 e),
            { m with select0 := p0, select1 := p1, select2 := p2,
                     select3 := p3 }, s3)) := by
  refine ⟨fun h0 => ?_, fun h0 h1 => ?_, fun h0 h1 h2 => ?_, fun h0 h1 h2 h3 => ?_⟩
  · simp only [Multiplexer.select, h0]
  · simp only [Multiplexer.select, h0, h1]
  · simp only [Multiplexer.select, h0, h1, h2]
  · simp only [Multiplexer.select, h0, h1, h2, h3]

/-- Witness for C4: two concrete instances. Selecting channel 12 (binary
1100) with a line-2 handle that fails with "e2": lines 0 and 1 are driven
low and stay in the log, the error is tagged Select2 with cause "e2", and
no line-3 event exists. Selecting channel 12 with a line-0 handle that
fails with "e2": the error is tagged Select0 and the log stays empty. -/
theorem select_failure_aborts_tagged_witness :
    Multiplexer.select (traceOps 0) (traceOps 1) failOps2 (traceOps 3)
        traceMux ⟨12⟩ [] =
      (.error (.Select2 "e2"), traceMux, [(0, false), (1, false)]) ∧
    Multiplexer.select failOps2 (traceOps 1) (traceOps 2) (traceOps 3)
        traceMux ⟨12⟩ [] =
      (.error (.Select0 "e2"), traceMux, []) :=
  ⟨(select_failure_aborts_tagged (traceOps 0) (traceOps 1) failOps2 (traceOps 3)
      traceMux ⟨12⟩ []).2.2.1 rfl rfl rfl,
   (select_failure_aborts_tagged failOps2 (traceOps 1) (traceOps 2) (traceOps 3)
      traceMux ⟨12⟩ []).1 rfl⟩

/-- C7: enable invokes set_low on the enable handle (driving the enable-low
line to its active low level) and returns exactly that operation's outcome,
success or error, unchanged; disable likewise invokes set_high (the
inactive high level) and returns its outcome unchanged. -/
theorem enable_disable_delegate {S0 S1 S2 S3 IOT EN w e : Type}
    (OEN : OutputPinOps EN w e) (m : Multiplexer S0 S1 S2 S3 IOT EN) (s : w) :
    (∀ (r : Except e Unit) (p : EN) (s1 : w), OEN.set_low m.en s = (r, p, s1) →
        Multiplexer.enable OEN m s = (r, { m with en := p }, s1)) ∧
    (∀ (r : Except e Unit) (p : EN) (s1 : w), OEN.set_high m.en s = (r, p, s1) →
        Multiplexer.disable OEN m s = (r, { m with en := p }, s1)) := by
  refine ⟨fun r p s1 h => ?_, fun r p s1 h => ?_⟩
  · simp only [Multiplexer.enable, h]
  · simp only [Multiplexer.disable, h]

/-- Witness for C7: with a trace enable handle over a list-of-levels world,
enable appends the low level false and disable appends the high level true,
both succeeding. -/
theorem enable_disable_delegate_witness :
    Multiplexer.enable enTraceOps traceMux [] = (.ok (), traceMux, [false]) ∧
    Multiplexer.disable enTraceOps traceMux [] = (.ok (), traceMux, [true]) :=
  ⟨(enable_disable_delegate enTraceOps traceMux []).1 (.ok ()) () [false] rfl,
   (enable_disable_delegate enTraceOps traceMux []).2 (.ok ()) () [true] rfl⟩

/-- C10: each operation leaves the handles it is not specified to drive
unchanged: select returns a multiplexer whose io and enable handles are the
input's (and takes no io or enable capability at all), enable and disable
return one whose four select handles and io handle are the input's, and the
pass-through set_high and set_low return one whose four select handles and
enable handle are the input's (is_high, is_low and channel return no
multiplexer and are given only the io capability). -/
theorem frame_effects (S0 S1 S2 S3 IOT EN : Type) :
    (∀ (w e0 e1 e2 e3 : Type) (O0 : OutputPinOps S0 w e0)
        (O1 : OutputPinOps S1 w e1) (O2 : OutputPinOps S2 w e2)
        (O3 : OutputPinOps S3 w e3)
        (m : Multiplexer S0 S1 S2 S3 IOT EN) (c : U4) (s : w),
        (Multiplexer.select O0 O1 O2 O3 m c s).2.1.io = m.io ∧
        (Multiplexer.select O0 O1 O2 O3 m c s).2.1.en = m.en) ∧
    (∀ (w e : Type) (OEN : OutputPinOps EN w e)
        (m : Multiplexer S0 S1 S2 S3 IOT EN) (s : w),
        ((Multiplexer.enable OEN m s).2.1.select0 = m.select0 ∧
         (Multiplexer.enable OEN m s).2.1.select1 = m.select1 ∧
         (Multiplexer.enable OEN m s).2.1.select2 = m.select2 ∧
         (Multiplexer.enable OEN m s).2.1.select3 = m.select3 ∧
         (Multiplexer.enable OEN m s).2.1.io = m.io) ∧
        ((Multiplexer.disable OEN m s).2.1.select0 = m.select0 ∧
         (Multiplexer.disable OEN m s).2.1.select1 = m.select1 ∧
         (Multiplexer.disable OEN m s).2.1.select2 = m.select2 ∧
         (Multiplexer.disable OEN m s).2.1.select3 = m.select3 ∧
         (Multiplexer.disable OEN m s).2.1.io = m.io)) ∧
    (∀ (w e : Type) (Opin : OutputPinOps IOT w e)
        (m : Multiplexer S0 S1 S2 S3 IOT EN) (s : w),
        ((Multiplexer.set_high Opin m s).2.1.select0 = m.select0 ∧
         (Multiplexer.set_high Opin m s).2.1.select1 = m.select1 ∧
         (Multiplexer.set_high Opin m s).2.1.select2 = m.select2 ∧
         (Multiplexer.set_high Opin m s).2.1.select3 = m.select3 ∧
         (Multiplexer.set_high Opin m s).2.1.en = m.en) ∧
        ((Multiplexer.set_low Opin m s).2.1.select0 = m.select0 ∧
         (Multiplexer.set_low Opin m s).2.1.select1 = m.select1 ∧
         (Multiplexer.set_low Opin m s).2.1.select2 = m.select2 ∧
         (Multiplexer.set_low Opin m s).2.1.select3 = m.select3 ∧
         (Multiplexer.set_low Opin m s).2.1.en = m.en)) := by
  refine ⟨fun w e0 e1 e2 e3 O0 O1 O2 O3 m c s => ?_,
    fun w e OEN m s => ?_, fun w e Opin m s => ?_⟩
  · unfold Multiplexer.select
    dsimp only
    repeat' split
    all_goals exact ⟨rfl, rfl⟩
  · unfold Multiplexer.enable Multiplexer.disable
    dsimp only
    exact ⟨⟨rfl, rfl, rfl, rfl, rfl⟩, ⟨rfl, rfl, rfl, rfl, rfl⟩⟩
  · unfold Multiplexer.set_high Multiplexer.set_low
    dsimp only
    exact ⟨⟨rfl, rfl, rfl, rfl, rfl⟩, ⟨rfl, rfl, rfl, rfl, rfl⟩⟩

end UnoMux
